import Mathlib

/-!
# Verification of the exchange-rate dashboard and scraper scripts

Shallow embedding of the Python sources of the `Python_crawler_1`
repository:

* `Lesson7_1/main.py` — module-level Streamlit dashboard: tradable-row
  filter, amount/rate conversion with comma stripping and a bare
  `except`, and the display block that rewrites the `"-"` sentinel to
  `"暫停交易"`.
* `Lesson7_1/Test.py` — `fetch_exchange_rates` (normalisation of empty
  and missing cells to the sentinel `"暫停交易"` and the both-sentinel
  filter), the tradable filter of `main`, and the top-level
  `try/except` of `main`.
* `Lesson7/Lesson7_3.py` — the product printer (`商品名`/`特價` by
  direct indexing, `原價` via `.get` with fallback `"無"`), and the
  declarative extraction schema it feeds to the crawler.

Machine floats of the source are modelled by exact rationals; Python
`float(...)` string parsing is modelled by `parseDec`/`pyFloat` on the
sign/digits/fraction fragment of Python float syntax (no exponent,
`inf`, `nan` or digit underscores — none of which occur in rate
strings of the modelled pages).
-/

/-! ## Model of the Python string primitives used by the sources -/

/-- Model of Python `str.strip()` (as used in `.str.strip()` and by
`float`): drop leading and trailing whitespace. -/
def pyStrip (s : String) : String :=
  let l := s.data.dropWhile Char.isWhitespace
  ⟨(l.reverse.dropWhile Char.isWhitespace).reverse⟩

/-- Model of `rate.replace(",", "")` in `main.py` line 51: remove every
comma of the string. -/
def stripCommas (s : String) : String :=
  ⟨s.data.filter (fun c => c ≠ ',')⟩

/-- Numeric value of a digit string, most significant digit first. -/
def digitsVal (l : List Char) : ℕ :=
  l.foldl (fun n c => 10 * n + (c.toNat - 48)) 0

/-- Result of parsing a Python float literal: sign, integer part,
fraction digits value and fraction length, so that the denoted number
is `± (intVal + fracVal / 10 ^ fracLen)`.  Kept in `ℕ`/`Bool` form so
that parses of concrete strings evaluate by `decide`. -/
structure PyDecimal where
  neg : Bool
  intVal : ℕ
  fracVal : ℕ
  fracLen : ℕ
deriving DecidableEq

/-- The rational number denoted by a parsed decimal. -/
def PyDecimal.toRat (d : PyDecimal) : ℚ :=
  (if d.neg then -1 else 1) * ((d.intVal : ℚ) + (d.fracVal : ℚ) / (10 : ℚ) ^ d.fracLen)

/-- Parse an unsigned decimal `digits [. digits]` with at least one
digit overall, as accepted by Python `float`. -/
def parseUnsignedDec (l : List Char) (neg : Bool) : Option PyDecimal :=
  let intPart := l.takeWhile Char.isDigit
  match l.drop intPart.length with
  | [] => if intPart.isEmpty then none else some ⟨neg, digitsVal intPart, 0, 0⟩
  | c :: frac =>
    if c = '.' ∧ frac.all Char.isDigit ∧ (intPart ≠ [] ∨ frac ≠ []) then
      some ⟨neg, digitsVal intPart, digitsVal frac, frac.length⟩
    else none

/-- Model of Python `float(s)` on the sign/digits/fraction fragment:
strip whitespace, optional sign, then an unsigned decimal.  `none`
models a raised `ValueError` (e.g. on the sentinel `"-"`). -/
def parseDec (s : String) : Option PyDecimal :=
  match (pyStrip s).data with
  | [] => none
  | '+' :: rest => parseUnsignedDec rest false
  | '-' :: rest => parseUnsignedDec rest true
  | l => parseUnsignedDec l false

/-- Python `float(s)` as a rational value. -/
def pyFloat (s : String) : Option ℚ :=
  (parseDec s).map PyDecimal.toRat

/-! ## `Lesson7_1/main.py` — module-level dashboard -/

/-- A row of the rate table scraped by `main.py` (schema `匯率表`):
幣別 / 現金買入 / 現金賣出 / 即期買入 / 即期賣出, each cell a raw
string. -/
structure SpotRow where
  currency : String
  cashBuy : String
  cashSell : String
  spotBuy : String
  spotSell : String
deriving DecidableEq

/-- `main.py` line 45: `tradable = rates[rates["即期賣出"].str.strip() != "-"]` —
keep the rows whose stripped spot-sell cell differs from the `"-"`
sentinel.  The spot-buy cell is not consulted. -/
def mainTradable (rows : List SpotRow) : List SpotRow :=
  rows.filter (fun r => pyStrip r.spotSell ≠ "-")

/-- Outcome of the conversion block of `main.py` lines 50–55: either
the `st.success` branch carrying `amount / rate`, or the
`st.warning("暫停交易")` branch reached through the bare `except`. -/
inductive ConvOutcome where
  | success (result : ℚ)
  | pausedWarning
deriving DecidableEq

/-- `main.py` lines 50–55:
`try: rate = float(rate.replace(",", "")); result = amount / rate; st.success(...)`
`except: st.warning("暫停交易")`.
A parse failure (`ValueError`) and a zero rate (`ZeroDivisionError`)
both land in the bare `except`. -/
def mainConvert (rateStr : String) (amount : ℚ) : ConvOutcome :=
  match pyFloat (stripCommas rateStr) with
  | none => ConvOutcome.pausedWarning
  | some r => if r = 0 then ConvOutcome.pausedWarning else ConvOutcome.success (amount / r)

/-- Model of the `f"{result:.2f}"` display precision of `main.py`
line 53: round to the nearest hundredth (the inputs settled here are
not ties, so the tie-breaking rule is immaterial). -/
def round2 (q : ℚ) : ℚ := ((⌊q * 100 + 1 / 2⌋ : ℤ) : ℚ) / 100

/-- `main.py` lines 64–65: a displayed cell shows `"暫停交易"` in place
of the (stripped) `"-"` sentinel and is otherwise unchanged. -/
def displayCell (x : String) : String :=
  if pyStrip x ≠ "-" then x else "暫停交易"

/-- The display rewrite applied to the four rate cells of a row
(`main.py` lines 64–65); the currency cell is untouched. -/
def displayRow (r : SpotRow) : SpotRow :=
  { r with
    cashBuy := displayCell r.cashBuy
    cashSell := displayCell r.cashSell
    spotBuy := displayCell r.spotBuy
    spotSell := displayCell r.spotSell }

/-- `main.py` lines 62–67: copy the table, rewrite sentinel cells to
`"暫停交易"`, then keep the rows with `即期賣出 != "-"` — in that
order, as in the source. -/
def showRows (rows : List SpotRow) : List SpotRow :=
  (rows.map displayRow).filter (fun r => r.spotSell ≠ "-")

/-- What the module-level script renders. -/
inductive RenderOut where
  | page (table : List SpotRow) (conv : ConvOutcome)
  | errorBox (msg : String)
deriving DecidableEq

/-- The module-level render body of `main.py` (lines 41–68).  The
`rates = get_rates()` call site has no surrounding `try`, so a fetch
failure — modelled by an `Except.error` input — leaves the body as an
uncaught exception (an `Except.error` result).  `chooseIdx` models the
selectbox choice among the tradable rows; `.values[0]` on an empty
selection raises an `IndexError`, likewise uncaught. -/
def mainModuleRender (fetch : Except String (List SpotRow)) (chooseIdx : ℕ) (amount : ℚ) :
    Except String RenderOut :=
  match fetch with
  | Except.error e => Except.error e
  | Except.ok rates =>
    match (mainTradable rates).get? chooseIdx with
    | none => Except.error "IndexError"
    | some row => Except.ok (RenderOut.page (showRows rates) (mainConvert row.spotSell amount))

/-! ## `Lesson7_1/Test.py` — `fetch_exchange_rates` and `main` -/

/-- A raw record produced by the crawl of `fetch_exchange_rates`
(schema `匯率資訊`): 幣別 / 本行即期買入 / 本行即期賣出.  `none`
models a missing cell (a null in the resulting data frame). -/
structure RawRateRow where
  currency : Option String
  spotBuy : Option String
  spotSell : Option String
deriving DecidableEq

/-- A processed row of the data frame returned by
`fetch_exchange_rates`: the two rate cells are plain strings after
normalisation; the currency cell is not normalised by the source, so
it stays optional. -/
structure RateRow where
  currency : Option String
  spotBuy : String
  spotSell : String
deriving DecidableEq

/-- `Test.py` lines 58–59: `.replace('', '暫停交易').fillna('暫停交易')` —
a missing cell or an empty string becomes the sentinel `"暫停交易"`;
every other cell is unchanged. -/
def normalizeCell (v : Option String) : String :=
  match v with
  | none => "暫停交易"
  | some s => if s = "" then "暫停交易" else s

/-- Normalisation of one crawled record (`Test.py` lines 58–59). -/
def normalizeRow (r : RawRateRow) : RateRow :=
  ⟨r.currency, normalizeCell r.spotBuy, normalizeCell r.spotSell⟩

/-- `fetch_exchange_rates` of `Test.py` (lines 11–64) after the crawl:
build the frame, and if it is non-empty normalise the two rate columns
and drop the rows whose buy and sell cells are both the sentinel
(line 62). -/
def fetch_exchange_rates (data : List RawRateRow) : List RateRow :=
  if data.isEmpty then []
  else (data.map normalizeRow).filter
    (fun r => ¬(r.spotBuy = "暫停交易" ∧ r.spotSell = "暫停交易"))

/-- `Test.py` lines 113–116: the tradable frame of `main` — rows with
at least one of the two rate cells not the sentinel. -/
def tradable_df (df : List RateRow) : List RateRow :=
  df.filter (fun r => r.spotBuy ≠ "暫停交易" ∨ r.spotSell ≠ "暫停交易")

/-- What `main` of `Test.py` renders. -/
inductive TestRender where
  | page (df : List RateRow)
  | errorBox (msg : String)
deriving DecidableEq

/-- The render body of `main` in `Test.py` (lines 88–183): the whole
body sits in `try: ... except Exception as e: st.error(f"❌ 發生錯誤：{str(e)}")`,
so a data-fetch failure — modelled by an `Except.error` input — is
caught and shown as a single error box; an empty frame is reported by
`st.error("❌ 無法取得匯率資料")`. -/
def test_main_render (fetch : Except String (List RateRow)) : TestRender :=
  match fetch with
  | Except.error e => TestRender.errorBox ("❌ 發生錯誤：" ++ e)
  | Except.ok df =>
    if df.isEmpty then TestRender.errorBox "❌ 無法取得匯率資料"
    else TestRender.page df

/-! ## `Lesson7/Lesson7_3.py` — extraction schema and product printer -/

/-- One field of an extraction schema: output field name and the
relative CSS selector for its text. -/
structure FieldSpec where
  name : String
  selector : String
deriving DecidableEq

/-- The declarative extraction schema of the sources: a root selector
locating repeated records plus a list of field descriptors. -/
structure ExtractionSchema where
  title : String
  baseSelector : String
  fields : List FieldSpec
deriving DecidableEq

/-- Modelled from the spec: the extraction engine
(`JsonCssExtractionStrategy` of the external crawling library) is not
part of the repository sources; §4.1 of the specification describes
its behaviour.  An HTML element is abstracted to the set of CSS
selectors it matches together with, for each relative selector, the
text of its first match (absent when nothing matches). -/
structure HtmlNode where
  selectors : List String
  inner : List (String × String)
deriving DecidableEq

/-- Modelled from the spec: a page is its elements in document
order. -/
structure HtmlDoc where
  nodes : List HtmlNode
deriving DecidableEq

/-- Text of the first match of a relative selector inside a node. -/
def selectText (node : HtmlNode) (sel : String) : Option String :=
  (node.inner.find? (fun p => p.1 = sel)).map (fun p => p.2)

/-- One extracted record: fields whose relative selector matched, in
schema order, as a name/text association list. -/
def extractRecord (fields : List FieldSpec) (node : HtmlNode) : List (String × String) :=
  fields.filterMap (fun f => (selectText node f.selector).map (fun t => (f.name, t)))

/-- Modelled from the spec (§4.1): apply a schema to a page — one
record per root-selector match, in document order; zero matches give
the empty sequence, no error. -/
def applySchema (schema : ExtractionSchema) (doc : HtmlDoc) : List (List (String × String)) :=
  (doc.nodes.filter (fun n => schema.baseSelector ∈ n.selectors)).map
    (extractRecord schema.fields)

/-- The schema literal of `Lesson7_3.py` lines 31–56. -/
def lesson7_3_schema : ExtractionSchema :=
  ⟨"項目名稱", "div.product-card",
    [⟨"商品名", "h2"⟩, ⟨"特價", "span.new-price"⟩, ⟨"原價", "span.old-price"⟩]⟩

/-- The two `product-card` elements of the inline HTML of
`Lesson7_3.py` lines 7–29, abstracted to selector/text form; the
second card has no `span.old-price`. -/
def lesson7_3_doc : HtmlDoc :=
  ⟨[⟨["div.product-card"],
      [("h2", "電競筆電 - 高效能遊戲機"),
       ("span.old-price", "原價 $1499.99"),
       ("span.new-price", "特價 $1299.99")]⟩,
    ⟨["div.product-card"],
      [("h2", "無線滑鼠 - 人體工學設計"),
       ("span.new-price", "$29.99")]⟩]⟩

/-- `item['key']` / `item.get('key')` on an extracted record: value of
the first binding of the key. -/
def getField (item : List (String × String)) (key : String) : Option String :=
  (item.find? (fun p => p.1 = key)).map (fun p => p.2)

/-- The print loop body of `Lesson7_3.py` lines 70–73 for one record:
`商品名` and `特價` are read by direct indexing (a missing key raises
a `KeyError`, modelled by `Except.error`), while `原價` is read with
`item.get('原價', '無')`.  On success the four printed lines are
returned in order. -/
def printItem (item : List (String × String)) : Except String (List String) :=
  match getField item "商品名" with
  | none => Except.error "KeyError: 商品名"
  | some name =>
    match getField item "特價" with
    | none => Except.error "KeyError: 特價"
    | some sale =>
      Except.ok
        ["商品:" ++ name,
         "原價:" ++ (getField item "原價").getD "無",
         "特價: " ++ sale,
         "============="]

/-! ## Helper lemmas -/

/-- A displayed cell is never the raw `"-"` sentinel: the rewrite of
`main.py` line 65 has already replaced it. -/
theorem displayCell_ne_dash (x : String) : displayCell x ≠ "-" := by
  unfold displayCell
  by_cases h : pyStrip x = "-"
  · simp [h]
  · simp [h]
    intro he
    rw [he] at h
    exact h (by decide)

/-- Normalised rate cells are never the empty string. -/
theorem normalizeCell_ne_empty (v : Option String) : normalizeCell v ≠ "" := by
  cases v with
  | none => simp [normalizeCell]
  | some s =>
    unfold normalizeCell
    by_cases h : s = ""
    · simp [h]
    · simp [h]

/-! ## Claims -/

/-- C1: for every user-chosen tradable row whose sell-rate string
parses to a number `r > 0` and every entered amount `a`, the
conversion result of the dashboard's conversion block equals
`a / r`. -/
theorem main_conversion_result_eq_div (row : SpotRow) (a r : ℚ)
    (hp : pyFloat (stripCommas row.spotSell) = some r) (hr : 0 < r) :
    mainConvert row.spotSell a = ConvOutcome.success (a / r) := by
  unfold mainConvert
  rw [hp]
  simp [hr.ne']

/-- Witness for C1 at the row `{幣別: "美金", 即期賣出: "31.50"}` and
amount `1000`: the rate parses to `63/2 > 0` and the result is
`1000 / (63/2)`. -/
theorem main_conversion_result_eq_div_witness :
    pyFloat (stripCommas "31.50") = some (63 / 2) ∧ (0 : ℚ) < 63 / 2 ∧
      mainConvert "31.50" 1000 = ConvOutcome.success (1000 / (63 / 2)) := by
  have hp : parseDec (stripCommas "31.50") = some ⟨false, 31, 50, 2⟩ := by decide
  have hv : pyFloat (stripCommas "31.50") = some (63 / 2) := by
    simp only [pyFloat, hp, Option.map_some']
    norm_num [PyDecimal.toRat]
  exact ⟨hv, by norm_num,
    main_conversion_result_eq_div ⟨"美金", "", "", "", "31.50"⟩ 1000 (63 / 2) hv (by norm_num)⟩

/-- C2: for every selected row whose sell-rate cell is the `"-"`
sentinel or whose cell fails numeric parsing, the conversion block
ends in the `st.warning("暫停交易")` state — a total outcome, never a
numeric result. -/
theorem main_conversion_sentinel_paused (row : SpotRow) (a : ℚ)
    (h : row.spotSell = "-" ∨ pyFloat (stripCommas row.spotSell) = none) :
    mainConvert row.spotSell a = ConvOutcome.pausedWarning := by
  rcases h with h | h
  · have hn : pyFloat (stripCommas "-") = none := by decide
    rw [h]
    unfold mainConvert
    rw [hn]
  · unfold mainConvert
    rw [h]

/-- Witness for C2 at a row whose sell-rate cell is the sentinel. -/
theorem main_conversion_sentinel_paused_witness :
    mainConvert "-" 5 = ConvOutcome.pausedWarning :=
  main_conversion_sentinel_paused ⟨"泰幣", "0.8", "0.9", "-", "-"⟩ 5 (Or.inl rfl)

/-- C3 (counterexample): the module-level dashboard's tradable set
(`main.py` line 45) excludes a row whose spot-buy cell is not the
sentinel, because it filters on the spot-sell cell alone — against the
claim that every row with at least one non-sentinel rate is
included. -/
theorem module_tradable_excludes_buy_only_row :
    mainTradable [⟨"美金", "30.0", "31.0", "30.1", "-"⟩] = [] ∧
      (⟨"美金", "30.0", "31.0", "30.1", "-"⟩ : SpotRow).spotBuy ≠ "-" := by
  decide

/-- C3 (amended): `fetch_exchange_rates` keeps exactly the normalised
rows where not both rates are the sentinel, and the tradable frame of
`Test.py`'s `main` keeps exactly the rows with at least one
non-sentinel rate; the module-level dashboard (`main.py`), by
contrast, keeps exactly the rows whose stripped spot-sell cell is not
`"-"`, regardless of the buy cell. -/
theorem tradable_filters_characterized :
    (∀ (data : List RawRateRow) (r : RateRow),
        r ∈ fetch_exchange_rates data ↔
          r ∈ data.map normalizeRow ∧
            ¬(r.spotBuy = "暫停交易" ∧ r.spotSell = "暫停交易"))
  ∧ (∀ (df : List RateRow) (r : RateRow),
        r ∈ tradable_df df ↔
          r ∈ df ∧ (r.spotBuy ≠ "暫停交易" ∨ r.spotSell ≠ "暫停交易"))
  ∧ (∀ (rows : List SpotRow) (r : SpotRow),
        r ∈ mainTradable rows ↔ r ∈ rows ∧ pyStrip r.spotSell ≠ "-") := by
  refine ⟨fun data r => ?_, fun df r => ?_, fun rows r => ?_⟩
  · unfold fetch_exchange_rates
    cases data with
    | nil => simp
    | cons a l =>
      simp [List.mem_filter]
      intro _
      tauto
  · simp [tradable_df, List.mem_filter]
  · simp [mainTradable, List.mem_filter]

/-- Witness for C3: a row with a non-sentinel buy cell and a sentinel
sell cell belongs to the tradable frame of `Test.py`'s `main`. -/
theorem tradable_filters_characterized_witness :
    (⟨some "美金", "30.1", "暫停交易"⟩ : RateRow) ∈
      tradable_df [⟨some "美金", "30.1", "暫停交易"⟩] :=
  (tradable_filters_characterized.2.1 _ _).mpr (by decide)

/-- C4: the conversion block strips thousands separators before
parsing (`rate.replace(",", "")` precedes `float`), so the rate string
`"1,234.5"` still yields the numeric result `a / 1234.5`. -/
theorem main_conversion_strips_thousands :
    stripCommas "1,234.5" = "1234.5" ∧
      ∀ a : ℚ, mainConvert "1,234.5" a = ConvOutcome.success (a / (2469 / 2)) := by
  refine ⟨by decide, fun a => ?_⟩
  have hp : parseDec (stripCommas "1,234.5") = some ⟨false, 1234, 5, 1⟩ := by decide
  have hv : pyFloat (stripCommas "1,234.5") = some (2469 / 2) := by
    simp only [pyFloat, hp, Option.map_some']
    norm_num [PyDecimal.toRat]
  unfold mainConvert
  rw [hv]
  norm_num

/-- C5 (code and comment diverge): the display block of `main.py`
rewrites sentinel cells to `"暫停交易"` *first*, so the subsequent
filter `show["即期賣出"] != "-"` (commented `只顯示可交易幣別`)
removes nothing, and a row whose spot-sell cell was the sentinel is
still displayed. -/
theorem main_display_filter_noop :
    (∀ rows : List SpotRow, showRows rows = rows.map displayRow)
  ∧ showRows [⟨"韓元", "0.02", "0.023", "0.021", "-"⟩]
      = [⟨"韓元", "0.02", "0.023", "0.021", "暫停交易"⟩] := by
  constructor
  · intro rows
    unfold showRows
    apply List.filter_eq_self.mpr
    intro r hr
    rcases List.mem_map.mp hr with ⟨s, _, rfl⟩
    simpa [displayRow] using displayCell_ne_dash s.spotSell
  · decide

/-- C6 (counterexample): in the module-level dashboard (`main.py`),
the `rates = get_rates()` call has no surrounding `try`, so a fetch
failure leaves the render body as an uncaught exception instead of a
visible error message. -/
theorem module_render_propagates_fetch_error :
    mainModuleRender (Except.error "ConnectionError") 0 1000 =
      Except.error "ConnectionError" := rfl

/-- C6 (amended): in the dashboard whose render body is wrapped in a
top-level `try/except` (`Test.py`'s `main`), every data-fetch failure
is caught and surfaced as the single error box `❌ 發生錯誤：...`. -/
theorem test_render_catches_fetch_error (e : String) :
    test_main_render (Except.error e) = TestRender.errorBox ("❌ 發生錯誤：" ++ e) := rfl

/-- C7: extraction is a deterministic function of the schema and the
page — applying a schema twice to equal inputs yields the same
sequence of records in the same order. -/
theorem extraction_deterministic (schema : ExtractionSchema) (d₁ d₂ : HtmlDoc)
    (h : d₁ = d₂) : applySchema schema d₁ = applySchema schema d₂ := by
  rw [h]

/-- Witness for C7 at the schema and inline page of `Lesson7_3.py`. -/
theorem extraction_deterministic_witness :
    applySchema lesson7_3_schema lesson7_3_doc = applySchema lesson7_3_schema lesson7_3_doc :=
  extraction_deterministic lesson7_3_schema lesson7_3_doc lesson7_3_doc rfl

/-- C8: for the row with sell rate `"31.50"` and amount `1000`, the
conversion result is `2000/63 = 1000 / 31.50`, and the two-decimal
display precision of `main.py` shows it as `31.75 = 127/4`. -/
theorem main_conversion_usd_example :
    mainConvert "31.50" 1000 = ConvOutcome.success (2000 / 63) ∧
      round2 (2000 / 63) = 127 / 4 := by
  constructor
  · have hp : parseDec (stripCommas "31.50") = some ⟨false, 31, 50, 2⟩ := by decide
    have hv : pyFloat (stripCommas "31.50") = some (63 / 2) := by
      simp only [pyFloat, hp, Option.map_some']
      norm_num [PyDecimal.toRat]
    unfold mainConvert
    rw [hv]
    norm_num
  · norm_num [round2]

/-- C9: in the printer of `Lesson7_3.py`, `原價` is optional — when it
is absent the success output carries the fallback `"無"` via
`item.get('原價', '無')` — while `商品名` and `特價` are read by
direct indexing, so a record missing either raises a `KeyError`
instead of completing the print. -/
theorem lesson7_3_print_fields (item : List (String × String)) :
    (getField item "商品名" = none →
        printItem item = Except.error "KeyError: 商品名")
  ∧ (∀ n, getField item "商品名" = some n → getField item "特價" = none →
        printItem item = Except.error "KeyError: 特價")
  ∧ (∀ n p, getField item "商品名" = some n → getField item "特價" = some p →
        printItem item = Except.ok
          ["商品:" ++ n,
           "原價:" ++ (getField item "原價").getD "無",
           "特價: " ++ p,
           "============="]) := by
  refine ⟨fun h => ?_, fun n hn hp => ?_, fun n p hn hp => ?_⟩
  · unfold printItem
    rw [h]
  · unfold printItem
    rw [hn, hp]
  · unfold printItem
    rw [hn, hp]

/-- Witness for C9 at the second product card of `Lesson7_3.py` (no
`原價` field): the print succeeds with the fallback line `原價:無`. -/
theorem lesson7_3_print_fields_witness :
    printItem [("商品名", "無線滑鼠 - 人體工學設計"), ("特價", "$29.99")]
      = Except.ok
          ["商品:無線滑鼠 - 人體工學設計", "原價:無", "特價: $29.99", "============="] :=
  (lesson7_3_print_fields [("商品名", "無線滑鼠 - 人體工學設計"), ("特價", "$29.99")]).2.2
    "無線滑鼠 - 人體工學設計" "$29.99" (by decide) (by decide)

/-- C10: every row of the frame returned by `fetch_exchange_rates` has
non-empty buy and sell cells (empty and missing cells having been
normalised to the sentinel `"暫停交易"`), and no returned row has both
cells equal to the sentinel. -/
theorem fetch_rows_invariant (data : List RawRateRow) (r : RateRow)
    (hr : r ∈ fetch_exchange_rates data) :
    r.spotBuy ≠ "" ∧ r.spotSell ≠ "" ∧
      ¬(r.spotBuy = "暫停交易" ∧ r.spotSell = "暫停交易") := by
  unfold fetch_exchange_rates at hr
  cases data with
  | nil => simp at hr
  | cons a l =>
    rw [if_neg (by simp)] at hr
    rw [List.mem_filter] at hr
    obtain ⟨hmem, hpred⟩ := hr
    rcases List.mem_map.mp hmem with ⟨raw, _, rfl⟩
    refine ⟨normalizeCell_ne_empty raw.spotBuy, normalizeCell_ne_empty raw.spotSell, ?_⟩
    simp at hpred
    tauto

/-- Witness for C10: a crawled row with an empty sell cell is returned
with the sell cell normalised to the sentinel, non-empty buy and sell
cells, and not both cells the sentinel. -/
theorem fetch_rows_invariant_witness :
    ((⟨some "美金", "30.1", "暫停交易"⟩ : RateRow) ∈
        fetch_exchange_rates [⟨some "美金", some "30.1", some ""⟩]) ∧
      (("30.1" : String) ≠ "" ∧ ("暫停交易" : String) ≠ "" ∧
        ¬(("30.1" : String) = "暫停交易" ∧ ("暫停交易" : String) = "暫停交易")) :=
  ⟨by decide, fetch_rows_invariant [⟨some "美金", some "30.1", some ""⟩]
    ⟨some "美金", "30.1", "暫停交易"⟩ (by decide)⟩
